import Mathlib

/-!
Shallow embedding of the PubNub provisioning scripts
(`create_pubnub_resources.py`, `setup-pubnub.py`) and the diagnostic
endpoint-probing script (`test-api-endpoints.py`).

HTTP responses are modelled as a status code together with a flat
string-valued JSON object (the credential and identifier fields the
scripts read are strings).  A network call either yields a response or
raises a transport exception (`Except.error`).  Each script's `main` is
embedded as a pure function from the outcomes of its two HTTP calls to a
trace: the requests issued, the files written, the process exit code and
whether a stack trace was printed.  Python truthiness of `dict.get`
results (`None` and `""` are falsy) and of dicts (`{}` is falsy) is made
explicit.
-/

/-- An HTTP response: status code and JSON body, modelled as a flat
string-valued object (the fields the scripts read are strings). -/
structure HttpResponse where
  status : Nat
  body : List (String × String)
deriving DecidableEq, Repr

/-- Outcome of one blocking HTTP call: a response, or a transport
exception carrying a message. -/
abbrev CallResult := Except String HttpResponse

/-- JSON values, for request bodies (the keyset configuration block is a
nested object). -/
inductive Json where
  | str : String → Json
  | num : Nat → Json
  | bool : Bool → Json
  | obj : List (String × Json) → Json

/-- Top-level field lookup in a JSON object, mirroring Python
`dict.get` on a parsed body. -/
def jsonField : Json → String → Option Json
  | .obj l, k => (l.find? (fun p => p.fst == k)).map Prod.snd
  | _, _ => none

/-- Python `dict.get(k)` on a flat string-valued body: `some v` when the
key is present, `none` (Python `None`) otherwise. -/
def dictGet (body : List (String × String)) (k : String) : Option String :=
  (body.find? (fun p => p.fst == k)).map Prod.snd

/-- Python truthiness of a `dict.get` result: `None` and the empty
string are falsy, every other string is truthy. -/
def pyTruthy : Option String → Bool
  | none => false
  | some s => !(s == "")

/-- Python `str()` of a `dict.get` result when interpolated into an
f-string: `None` renders as the four characters `None`. -/
def pyStrOpt : Option String → String
  | none => "None"
  | some s => s

/-- The static bearer credential baked into all three scripts. -/
def API_KEY : String := "si_0OXCgHBk0K7Z.Ncv1IY0F+K7dBZWyyym/DNRKLNTgopaGWB0OsulHJsr6"

/-- The base URL shared by both provisioning scripts. -/
def BASE_URL : String := "https://ps.pndsn.com/v2"

/-- The headers sent on every provisioning request (identical dicts in
both scripts). -/
def authHeaders : List (String × String) :=
  [("Authorization", "Bearer " ++ API_KEY), ("Content-Type", "application/json")]

/-- An outbound HTTP request as issued by `requests.post`. -/
structure Request where
  method : String
  url : String
  headers : List (String × String)
  body : Json

/-- The stage-1 application-creation request, `POST {BASE_URL}/apps`
with body `{"name": name}` (identical in both provisioning scripts). -/
def appRequest (name : String) : Request :=
  { method := "POST", url := BASE_URL ++ "/apps", headers := authHeaders,
    body := .obj [("name", .str name)] }

/-- `create_app` (identical logic in both scripts): on status 200 or
201 return `app_data.get('id')`, else return `None`.  A missing `id` on
a 2xx response also yields `none`, exactly as `dict.get` does. -/
def create_app (resp : HttpResponse) : Option String :=
  if resp.status = 200 ∨ resp.status = 201 then dictGet resp.body "id" else none

/-- `create_keyset` response handling (identical in both scripts): on
status 200 or 201 return the parsed body dict, else `None`. -/
def create_keyset (resp : HttpResponse) : Option (List (String × String)) :=
  if resp.status = 200 ∨ resp.status = 201 then some resp.body else none

/-- The hard-coded keyset configuration block of
`create_pubnub_resources.py` (camelCase schema, nested `config`). -/
def crpKeysetConfig (name : String) : Json :=
  .obj [("name", .str name), ("type", .str "production"),
        ("config", .obj [
          ("messagePersistence", .obj [
            ("enabled", .bool true), ("retention", .num 7),
            ("deleteFromHistory", .bool true), ("includePresenceEvents", .bool false)]),
          ("appContext", .obj [
            ("enabled", .bool true), ("region", .str "aws-iad-1"),
            ("userMetadataEvents", .bool false), ("channelMetadataEvents", .bool false),
            ("membershipEvents", .bool false), ("disallowGetAllUserMetadata", .bool false),
            ("disallowGetAllChannelMetadata", .bool false), ("referentialIntegrity", .bool false)]),
          ("presence", .obj [("enabled", .bool false)]),
          ("files", .obj [("enabled", .bool false)])])]

/-- The stage-2 request of `create_pubnub_resources.py`:
`POST {BASE_URL}/apps/{app_id}/keysets`. -/
def crpKeysetRequest (app_id name : String) : Request :=
  { method := "POST", url := BASE_URL ++ "/apps/" ++ app_id ++ "/keysets",
    headers := authHeaders, body := crpKeysetConfig name }

/-- The hard-coded keyset configuration of `setup-pubnub.py`
(snake_case schema, flat endpoint, `app_id` carried in the body). -/
def spKeysetConfig (app_id name : String) : Json :=
  .obj [("app_id", .str app_id), ("name", .str name), ("production", .bool false),
        ("features", .obj [
          ("message_persistence", .obj [
            ("enabled", .bool true), ("retention", .num 7),
            ("delete_from_history", .bool true), ("include_presence_events", .bool false)]),
          ("presence", .obj [
            ("enabled", .bool true), ("announce_max", .num 20), ("interval", .num 10),
            ("deltas", .bool true), ("debounce", .num 3),
            ("generate_leave_on_disconnect", .bool true), ("stream_filtering", .bool false)]),
          ("objects", .obj [
            ("enabled", .bool true), ("region", .str "aws-iad-1"),
            ("user_metadata_events", .bool true), ("channel_metadata_events", .bool true),
            ("membership_events", .bool true), ("referential_integrity", .bool false),
            ("disallow_get_all_user_metadata", .bool false),
            ("disallow_get_all_channel_metadata", .bool false)])])]

/-- The stage-2 request of `setup-pubnub.py`: `POST {BASE_URL}/keys`. -/
def spKeysetRequest (app_id name : String) : Request :=
  { method := "POST", url := BASE_URL ++ "/keys", headers := authHeaders,
    body := spKeysetConfig app_id name }

/-- `create_env_file` of `create_pubnub_resources.py`: the exact text
written to `.env` (two comment lines, a blank line, then the two
KEY=value lines, trailing newline). -/
def create_env_file (publish_key subscribe_key : String) : String :=
  "# PubNub Configuration for Swap It!\n# Generated automatically\n\n" ++
  "VITE_PUBNUB_PUBLISH_KEY=" ++ publish_key ++ "\n" ++
  "VITE_PUBNUB_SUBSCRIBE_KEY=" ++ subscribe_key ++ "\n"

/-- `save_env_file` of `setup-pubnub.py`: the exact text written.  Its
arguments are raw `dict.get` results, so a missing key is interpolated
as `None`. -/
def save_env_file (pub_key sub_key : Option String) : String :=
  "VITE_PUBNUB_PUBLISH_KEY=" ++ pyStrOpt pub_key ++ "\n" ++
  "VITE_PUBNUB_SUBSCRIBE_KEY=" ++ pyStrOpt sub_key ++ "\n"

/-- The fixed destination path of `setup-pubnub.py`. -/
def spEnvPath : String := "/Users/craig/Documents/gits/swapit/client/.env"

/-- Observable trace of one pipeline run: requests issued in order,
file writes as (path, content) pairs in order, process exit code, and
whether a stack trace was printed. -/
structure RunResult where
  requests : List Request
  writes : List (String × String)
  exitCode : Nat
  tracebackPrinted : Bool

/-- `main` of `create_pubnub_resources.py` together with its
`if __name__ == "__main__"` try/except guard, as a function of the two
HTTP call outcomes.  A transport exception is caught by the guard
(stack trace printed, `sys.exit(1)`); a falsy `app_id` or keyset dict
aborts with `sys.exit(1)`; stage 3 runs only when both credentials are
truthy; normal return of `main` exits 0. -/
def crpRun (appR ksR : CallResult) : RunResult :=
  let req1 := appRequest "Swap It Game"
  match appR with
  | .error _ => ⟨[req1], [], 1, true⟩
  | .ok aresp =>
    match create_app aresp with
    | none => ⟨[req1], [], 1, false⟩
    | some app_id =>
      if app_id = "" then ⟨[req1], [], 1, false⟩
      else
        let req2 := crpKeysetRequest app_id "Swap It Production"
        match ksR with
        | .error _ => ⟨[req1, req2], [], 1, true⟩
        | .ok kresp =>
          match create_keyset kresp with
          | none => ⟨[req1, req2], [], 1, false⟩
          | some keyset_data =>
            if keyset_data = [] then ⟨[req1, req2], [], 1, false⟩
            else
              match dictGet keyset_data "publishKey", dictGet keyset_data "subscribeKey" with
              | some p, some s =>
                if p = "" ∨ s = "" then ⟨[req1, req2], [], 1, false⟩
                else ⟨[req1, req2], [(".env", create_env_file p s)], 0, false⟩
              | some _, none => ⟨[req1, req2], [], 1, false⟩
              | none, _ => ⟨[req1, req2], [], 1, false⟩

/-- `main` of `setup-pubnub.py` (no try/except guard: an uncaught
transport exception makes the interpreter print a stack trace and exit
1).  After a truthy keyset dict, `save_env_file` is called
unconditionally on the raw `dict.get` results. -/
def spRun (appR ksR : CallResult) : RunResult :=
  let req1 := appRequest "Swap It Game"
  match appR with
  | .error _ => ⟨[req1], [], 1, true⟩
  | .ok aresp =>
    match create_app aresp with
    | none => ⟨[req1], [], 1, false⟩
    | some app_id =>
      if app_id = "" then ⟨[req1], [], 1, false⟩
      else
        let req2 := spKeysetRequest app_id "Swap It Game Keys"
        match ksR with
        | .error _ => ⟨[req1, req2], [], 1, true⟩
        | .ok kresp =>
          match create_keyset kresp with
          | none => ⟨[req1, req2], [], 1, false⟩
          | some keyset_data =>
            if keyset_data = [] then ⟨[req1, req2], [], 1, false⟩
            else
              ⟨[req1, req2],
               [(spEnvPath,
                 save_env_file (dictGet keyset_data "publish_key")
                               (dictGet keyset_data "subscribe_key"))],
               0, false⟩

/-- Stage 1 yielded a truthy application identifier (a 2xx response
whose `id` field is present and non-empty). -/
def stage1Success (appR : CallResult) : Bool :=
  match appR with
  | .error _ => false
  | .ok r => pyTruthy (create_app r)

/-- Stage 2 yielded a truthy keyset record (a 2xx response with a
non-empty body dict). -/
def stage2Success (ksR : CallResult) : Bool :=
  match ksR with
  | .error _ => false
  | .ok r =>
    match create_keyset r with
    | none => false
    | some d => !d.isEmpty

/-- Replay a list of (path, content) writes on a file system, each
write fully replacing the file at its path (`open(path, 'w')`). -/
def applyWrites (fs : String → Option String) : List (String × String) → (String → Option String)
  | [] => fs
  | (p, c) :: rest => applyWrites (fun q => if q = p then some c else fs q) rest

/-- A file whose content is exactly the two given lines. -/
def twoLineFile (a b : String) : String := a ++ "\n" ++ b ++ "\n"

/-- The lines of a file: its character list split at newline
characters. -/
def fileLines (s : String) : List String :=
  (s.data.splitOn (Char.ofNat 10)).map (fun l => String.mk l)

/-- `test-api-endpoints.py`: the fixed endpoint list
(method, url, description). -/
def endpoints : List (String × String × String) :=
  [("GET", "https://ps.pndsn.com/v2/apps", "List apps v2"),
   ("GET", "https://admin.pubnub.com/api/v1/apps", "List apps v1"),
   ("GET", "https://ps.pndsn.com/api/v2/apps", "List apps v2 alt"),
   ("GET", "https://ps.pndsn.com/v2/keysets", "List keysets v2"),
   ("GET", "https://ps.pndsn.com/v2/keys", "List keys v2")]

/-- One probe request as issued: method, url, the `timeout=5`
argument, and which branch of the `if method == "GET"` built it. -/
structure ProbeCall where
  method : String
  url : String
  timeout : Nat
  viaPostBranch : Bool

/-- Outcome of one probe request: a response (status, text) or a raised
exception. -/
inductive ProbeOutcome where
  | ok : Nat → String → ProbeOutcome
  | exn : String → ProbeOutcome

/-- What one loop iteration prints after its try/except: the status and
truncated body, or the caught exception's message. -/
inductive StepResult where
  | completed : Nat → String → StepResult
  | errored : String → StepResult

/-- The request constructed by one iteration of the probing loop:
`requests.get(url, timeout=5)` when the method is GET, otherwise
`requests.post(url, timeout=5)`. -/
def mkProbeCall (method url : String) : ProbeCall :=
  if method = "GET" then ⟨"GET", url, 5, false⟩ else ⟨"POST", url, 5, true⟩

/-- The probing loop of `test-api-endpoints.py` over a list of entries,
with the outcome of each URL given by an oracle.  Each iteration issues
its request inside try/except and the loop continues regardless of the
outcome. -/
def runProbe : List (String × String × String) → (String → ProbeOutcome) → List (ProbeCall × StepResult)
  | [], _ => []
  | (method, url, _) :: rest, oracle =>
    let call := mkProbeCall method url
    let result :=
      match oracle url with
      | .ok st text => StepResult.completed st (text.take 200)
      | .exn e => StepResult.errored e
    (call, result) :: runProbe rest oracle

/-! ### Helper lemmas -/

lemma dictGet_some_ne_nil {body : List (String × String)} {k v : String}
    (h : dictGet body k = some v) : body ≠ [] := by
  intro hnil
  rw [hnil] at h
  simp [dictGet] at h

lemma create_app_2xx (resp : HttpResponse) (i : String)
    (hst : resp.status = 200 ∨ resp.status = 201)
    (hid : dictGet resp.body "id" = some i) : create_app resp = some i := by
  simp [create_app, hst, hid]

lemma stage1Success_elim (appR : CallResult) (h : stage1Success appR = true) :
    ∃ aresp i, appR = .ok aresp ∧ create_app aresp = some i ∧ i ≠ "" := by
  cases appR with
  | error e => simp [stage1Success] at h
  | ok aresp =>
    simp only [stage1Success] at h
    cases hc : create_app aresp with
    | none => rw [hc] at h; simp [pyTruthy] at h
    | some s =>
      rw [hc] at h
      refine ⟨aresp, s, rfl, hc, ?_⟩
      simpa [pyTruthy] using h

lemma stage2Success_elim (ksR : CallResult) (h : stage2Success ksR = true) :
    ∃ kresp, ksR = .ok kresp ∧ (kresp.status = 200 ∨ kresp.status = 201) ∧
      kresp.body ≠ [] := by
  cases ksR with
  | error e => simp [stage2Success] at h
  | ok kresp =>
    simp only [stage2Success] at h
    cases hk : create_keyset kresp with
    | none => rw [hk] at h; simp at h
    | some d =>
      rw [hk] at h
      simp only [create_keyset] at hk
      by_cases hst : kresp.status = 200 ∨ kresp.status = 201
      · rw [if_pos hst] at hk
        refine ⟨kresp, rfl, hst, ?_⟩
        have hd : d = kresp.body := by simpa using hk.symm
        subst hd
        simpa using h
      · rw [if_neg hst] at hk
        exact absurd hk (by simp)

lemma crpRun_stage1_fail (appR ksR : CallResult) (h : stage1Success appR = false) :
    (crpRun appR ksR).requests = [appRequest "Swap It Game"] ∧
    (crpRun appR ksR).writes = [] ∧ (crpRun appR ksR).exitCode = 1 := by
  cases appR with
  | error e => exact ⟨rfl, rfl, rfl⟩
  | ok aresp =>
    simp only [stage1Success] at h
    cases hc : create_app aresp with
    | none => simp [crpRun, hc]
    | some s =>
      rw [hc] at h
      simp only [pyTruthy, Bool.not_eq_false'] at h
      have hs : s = "" := by simpa using h
      simp [crpRun, hc, hs]

lemma spRun_stage1_fail (appR ksR : CallResult) (h : stage1Success appR = false) :
    (spRun appR ksR).requests = [appRequest "Swap It Game"] ∧
    (spRun appR ksR).writes = [] ∧ (spRun appR ksR).exitCode = 1 := by
  cases appR with
  | error e => exact ⟨rfl, rfl, rfl⟩
  | ok aresp =>
    simp only [stage1Success] at h
    cases hc : create_app aresp with
    | none => simp [spRun, hc]
    | some s =>
      rw [hc] at h
      simp only [pyTruthy, Bool.not_eq_false'] at h
      have hs : s = "" := by simpa using h
      simp [spRun, hc, hs]

lemma crpRun_requests_stage1_ok (aresp : HttpResponse) (ksR : CallResult) (i : String)
    (hc : create_app aresp = some i) (hi : i ≠ "") :
    (crpRun (.ok aresp) ksR).requests =
      [appRequest "Swap It Game", crpKeysetRequest i "Swap It Production"] := by
  cases ksR with
  | error e => simp [crpRun, hc, hi]
  | ok kresp =>
    cases hk : create_keyset kresp with
    | none => simp [crpRun, hc, hi, hk]
    | some d =>
      by_cases hd : d = []
      · simp [crpRun, hc, hi, hk, hd]
      · cases hp : dictGet d "publishKey" with
        | none => simp [crpRun, hc, hi, hk, hd, hp]
        | some p =>
          cases hs : dictGet d "subscribeKey" with
          | none => simp [crpRun, hc, hi, hk, hd, hp, hs]
          | some s =>
            by_cases hps : p = "" ∨ s = ""
            · simp [crpRun, hc, hi, hk, hd, hp, hs, hps]
            · simp [crpRun, hc, hi, hk, hd, hp, hs, hps]

lemma spRun_requests_stage1_ok (aresp : HttpResponse) (ksR : CallResult) (i : String)
    (hc : create_app aresp = some i) (hi : i ≠ "") :
    (spRun (.ok aresp) ksR).requests =
      [appRequest "Swap It Game", spKeysetRequest i "Swap It Game Keys"] := by
  cases ksR with
  | error e => simp [spRun, hc, hi]
  | ok kresp =>
    cases hk : create_keyset kresp with
    | none => simp [spRun, hc, hi, hk]
    | some d =>
      by_cases hd : d = []
      · simp [spRun, hc, hi, hk, hd]
      · simp [spRun, hc, hi, hk, hd]

lemma crpRun_stage2_fail (appR ksR : CallResult) (h2 : stage2Success ksR = false) :
    (crpRun appR ksR).writes = [] ∧ (crpRun appR ksR).exitCode = 1 := by
  by_cases h1 : stage1Success appR = true
  · obtain ⟨aresp, i, rfl, hc, hi⟩ := stage1Success_elim appR h1
    cases ksR with
    | error e => simp [crpRun, hc, hi]
    | ok kresp =>
      simp only [stage2Success] at h2
      cases hk : create_keyset kresp with
      | none => simp [crpRun, hc, hi, hk]
      | some d =>
        rw [hk] at h2
        have hd : d = [] := by simpa using h2
        simp [crpRun, hc, hi, hk, hd]
  · have h := crpRun_stage1_fail appR ksR (by simpa using h1)
    exact ⟨h.2.1, h.2.2⟩

lemma spRun_stage2_fail (appR ksR : CallResult) (h2 : stage2Success ksR = false) :
    (spRun appR ksR).writes = [] ∧ (spRun appR ksR).exitCode = 1 := by
  by_cases h1 : stage1Success appR = true
  · obtain ⟨aresp, i, rfl, hc, hi⟩ := stage1Success_elim appR h1
    cases ksR with
    | error e => simp [spRun, hc, hi]
    | ok kresp =>
      simp only [stage2Success] at h2
      cases hk : create_keyset kresp with
      | none => simp [spRun, hc, hi, hk]
      | some d =>
        rw [hk] at h2
        have hd : d = [] := by simpa using h2
        simp [spRun, hc, hi, hk, hd]
  · have h := spRun_stage1_fail appR ksR (by simpa using h1)
    exact ⟨h.2.1, h.2.2⟩

lemma crpRun_success (aresp kresp : HttpResponse) (i p s : String)
    (hc : create_app aresp = some i) (hi : i ≠ "")
    (h2 : kresp.status = 200 ∨ kresp.status = 201)
    (hp : dictGet kresp.body "publishKey" = some p) (hp' : p ≠ "")
    (hs : dictGet kresp.body "subscribeKey" = some s) (hs' : s ≠ "") :
    crpRun (.ok aresp) (.ok kresp) =
      ⟨[appRequest "Swap It Game", crpKeysetRequest i "Swap It Production"],
       [(".env", create_env_file p s)], 0, false⟩ := by
  have hk : create_keyset kresp = some kresp.body := by simp [create_keyset, h2]
  have hd : kresp.body ≠ [] := dictGet_some_ne_nil hp
  have hps : ¬(p = "" ∨ s = "") := by
    rintro (h | h)
    · exact hp' h
    · exact hs' h
  simp [crpRun, hc, hi, hk, hd, hp, hs, hps]

lemma spRun_success (aresp kresp : HttpResponse) (i : String)
    (hc : create_app aresp = some i) (hi : i ≠ "")
    (h2 : kresp.status = 200 ∨ kresp.status = 201) (hd : kresp.body ≠ []) :
    spRun (.ok aresp) (.ok kresp) =
      ⟨[appRequest "Swap It Game", spKeysetRequest i "Swap It Game Keys"],
       [(spEnvPath,
         save_env_file (dictGet kresp.body "publish_key")
                       (dictGet kresp.body "subscribe_key"))],
       0, false⟩ := by
  have hk : create_keyset kresp = some kresp.body := by simp [create_keyset, h2]
  simp [spRun, hc, hi, hk, hd]

lemma spRun_writes_ne_nil_iff (appR ksR : CallResult) :
    (spRun appR ksR).writes ≠ [] ↔
      (stage1Success appR = true ∧ stage2Success ksR = true) := by
  constructor
  · intro hw
    by_cases h1 : stage1Success appR = true
    · refine ⟨h1, ?_⟩
      by_cases h2 : stage2Success ksR = true
      · exact h2
      · exact absurd (spRun_stage2_fail appR ksR (by simpa using h2)).1 hw
    · exact absurd (spRun_stage1_fail appR ksR (by simpa using h1)).2.1 hw
  · rintro ⟨h1, h2⟩
    obtain ⟨aresp, i, rfl, hc, hi⟩ := stage1Success_elim appR h1
    obtain ⟨kresp, rfl, h2x, hd⟩ := stage2Success_elim ksR h2
    rw [spRun_success aresp kresp i hc hi h2x hd]
    simp

lemma crpRun_writes_shape (appR ksR : CallResult) :
    (crpRun appR ksR).writes = [] ∨
      ∃ c, (crpRun appR ksR).writes = [(".env", c)] := by
  unfold crpRun
  (repeat' split) <;> simp

lemma spRun_writes_shape (appR ksR : CallResult) :
    (spRun appR ksR).writes = [] ∨
      ∃ c, (spRun appR ksR).writes = [(spEnvPath, c)] := by
  unfold spRun
  (repeat' split) <;> simp

lemma crpRun_first_request (appR ksR : CallResult) :
    (crpRun appR ksR).requests.head? = some (appRequest "Swap It Game") := by
  unfold crpRun
  (repeat' split) <;> rfl

lemma spRun_first_request (appR ksR : CallResult) :
    (spRun appR ksR).requests.head? = some (appRequest "Swap It Game") := by
  unfold spRun
  (repeat' split) <;> rfl

lemma applyWrites_nil (fs : String → Option String) : applyWrites fs [] = fs := rfl

lemma applyWrites_single (fs : String → Option String) (p c q : String) :
    applyWrites fs [(p, c)] q = if q = p then some c else fs q := rfl

lemma create_env_file_eq (P S : String) :
    create_env_file P S =
      "# PubNub Configuration for Swap It!\n# Generated automatically\n\n" ++
        twoLineFile ("VITE_PUBNUB_PUBLISH_KEY=" ++ P) ("VITE_PUBNUB_SUBSCRIBE_KEY=" ++ S) := by
  simp only [create_env_file, twoLineFile, String.append_assoc]

lemma save_env_file_eq (P S : String) :
    save_env_file (some P) (some S) =
      twoLineFile ("VITE_PUBNUB_PUBLISH_KEY=" ++ P) ("VITE_PUBNUB_SUBSCRIBE_KEY=" ++ S) := by
  simp only [save_env_file, twoLineFile, pyStrOpt, String.append_assoc]

/-! ### Claim theorems -/

/-- C1 counterexample: in `setup-pubnub.py`, a 200 keyset response whose
body lacks both credential fields still leads to a file write (with the
literal text `None` as both values) and exit code 0, so the persist
stage is not guarded by non-empty credentials there. -/
theorem C1_counterexample :
    dictGet [("id", "k1")] "publish_key" = none ∧
    dictGet [("id", "k1")] "subscribe_key" = none ∧
    (spRun (.ok ⟨200, [("id", "app1")]⟩) (.ok ⟨200, [("id", "k1")]⟩)).writes =
      [(spEnvPath, "VITE_PUBNUB_PUBLISH_KEY=None\nVITE_PUBNUB_SUBSCRIBE_KEY=None\n")] ∧
    (spRun (.ok ⟨200, [("id", "app1")]⟩) (.ok ⟨200, [("id", "k1")]⟩)).exitCode = 0 :=
  ⟨rfl, rfl, rfl, rfl⟩

/-- C1 (amended): in `create_pubnub_resources.py`, a keyset-creation
response whose body lacks the publish or the subscribe credential (or
carries an empty string for either) leads to no file write and exit
code 1; in `setup-pubnub.py`, by contrast, the persist stage executes
exactly when stage 1 yields a non-empty id and the keyset response is
2xx with a non-empty body, regardless of the credential fields. -/
theorem C1_stage3_credential_guard (appR : CallResult) (kresp : HttpResponse)
    (h : pyTruthy (dictGet kresp.body "publishKey") = false ∨
         pyTruthy (dictGet kresp.body "subscribeKey") = false) :
    ((crpRun appR (.ok kresp)).writes = [] ∧ (crpRun appR (.ok kresp)).exitCode = 1) ∧
    ((spRun appR (.ok kresp)).writes ≠ [] ↔
      (stage1Success appR = true ∧ stage2Success (.ok kresp) = true)) := by
  refine ⟨?_, spRun_writes_ne_nil_iff appR (.ok kresp)⟩
  by_cases h1 : stage1Success appR = true
  · obtain ⟨aresp, i, rfl, hc, hi⟩ := stage1Success_elim appR h1
    by_cases h2 : kresp.status = 200 ∨ kresp.status = 201
    · have hk : create_keyset kresp = some kresp.body := by simp [create_keyset, h2]
      by_cases hd : kresp.body = []
      · simp [crpRun, hc, hi, hk, hd]
      · cases hp : dictGet kresp.body "publishKey" with
        | none => simp [crpRun, hc, hi, hk, hd, hp]
        | some p =>
          cases hsk : dictGet kresp.body "subscribeKey" with
          | none => simp [crpRun, hc, hi, hk, hd, hp, hsk]
          | some s =>
            have hps : p = "" ∨ s = "" := by
              rcases h with h | h
              · rw [hp] at h
                left
                simpa [pyTruthy] using h
              · rw [hsk] at h
                right
                simpa [pyTruthy] using h
            simp [crpRun, hc, hi, hk, hd, hp, hsk, hps]
    · have hk : create_keyset kresp = none := by simp [create_keyset, h2]
      simp [crpRun, hc, hi, hk]
  · have hf := crpRun_stage1_fail appR (.ok kresp) (by simpa using h1)
    exact ⟨hf.2.1, hf.2.2⟩

/-- Witness for C1 at a concrete input (stage 1 fails with status 401;
the keyset body lacks both camelCase credential fields). -/
theorem C1_stage3_credential_guard_witness :
    (pyTruthy (dictGet [("id", "k1")] "publishKey") = false ∨
     pyTruthy (dictGet [("id", "k1")] "subscribeKey") = false) ∧
    (((crpRun (.ok ⟨401, []⟩) (.ok ⟨200, [("id", "k1")]⟩)).writes = [] ∧
      (crpRun (.ok ⟨401, []⟩) (.ok ⟨200, [("id", "k1")]⟩)).exitCode = 1) ∧
     ((spRun (.ok ⟨401, []⟩) (.ok ⟨200, [("id", "k1")]⟩)).writes ≠ [] ↔
       (stage1Success (.ok ⟨401, []⟩) = true ∧
        stage2Success (.ok ⟨200, [("id", "k1")]⟩) = true))) :=
  ⟨by decide, C1_stage3_credential_guard (.ok ⟨401, []⟩) ⟨200, [("id", "k1")]⟩ (by decide)⟩

/-- C2 counterexample: on a fully successful run of
`create_pubnub_resources.py` the written `.env` content is a five-line
file (two comment lines, a blank line, then the two KEY=value lines),
not a file consisting of exactly the two KEY=value lines. -/
theorem C2_counterexample :
    (crpRun (.ok ⟨201, [("id", "app_123")]⟩)
        (.ok ⟨200, [("publishKey", "pub_abc"), ("subscribeKey", "sub_xyz")]⟩)).writes =
      [(".env", create_env_file "pub_abc" "sub_xyz")] ∧
    fileLines (create_env_file "pub_abc" "sub_xyz") =
      ["# PubNub Configuration for Swap It!", "# Generated automatically", "",
       "VITE_PUBNUB_PUBLISH_KEY=pub_abc", "VITE_PUBNUB_SUBSCRIBE_KEY=sub_xyz", ""] ∧
    create_env_file "pub_abc" "sub_xyz" ≠
      twoLineFile "VITE_PUBNUB_PUBLISH_KEY=pub_abc" "VITE_PUBNUB_SUBSCRIBE_KEY=sub_xyz" ∧
    create_env_file "pub_abc" "sub_xyz" ≠
      twoLineFile "VITE_PUBNUB_SUBSCRIBE_KEY=sub_xyz" "VITE_PUBNUB_PUBLISH_KEY=pub_abc" :=
  ⟨rfl, by decide, by decide, by decide⟩

/-- C2 (amended): on a successful run with publish credential `P` and
subscribe credential `S`, exactly one file is written; in
`setup-pubnub.py` its content is exactly the two lines
`VITE_PUBNUB_PUBLISH_KEY=P` and `VITE_PUBNUB_SUBSCRIBE_KEY=S`; in
`create_pubnub_resources.py` those two lines are preceded by two
comment lines and one blank line.  In both cases the run exits 0. -/
theorem C2_persisted_file :
    (∀ (aresp kresp : HttpResponse) (i P S : String),
      create_app aresp = some i → i ≠ "" →
      (kresp.status = 200 ∨ kresp.status = 201) →
      dictGet kresp.body "publishKey" = some P → P ≠ "" →
      dictGet kresp.body "subscribeKey" = some S → S ≠ "" →
      (crpRun (.ok aresp) (.ok kresp)).writes =
        [(".env",
          "# PubNub Configuration for Swap It!\n# Generated automatically\n\n" ++
            twoLineFile ("VITE_PUBNUB_PUBLISH_KEY=" ++ P)
              ("VITE_PUBNUB_SUBSCRIBE_KEY=" ++ S))] ∧
      (crpRun (.ok aresp) (.ok kresp)).exitCode = 0) ∧
    (∀ (aresp kresp : HttpResponse) (i P S : String),
      create_app aresp = some i → i ≠ "" →
      (kresp.status = 200 ∨ kresp.status = 201) →
      dictGet kresp.body "publish_key" = some P →
      dictGet kresp.body "subscribe_key" = some S →
      (spRun (.ok aresp) (.ok kresp)).writes =
        [(spEnvPath,
          twoLineFile ("VITE_PUBNUB_PUBLISH_KEY=" ++ P)
            ("VITE_PUBNUB_SUBSCRIBE_KEY=" ++ S))] ∧
      (spRun (.ok aresp) (.ok kresp)).exitCode = 0) := by
  constructor
  · intro aresp kresp i P S hc hi h2 hp hp' hs hs'
    rw [crpRun_success aresp kresp i P S hc hi h2 hp hp' hs hs']
    exact ⟨by simp only [create_env_file_eq], rfl⟩
  · intro aresp kresp i P S hc hi h2 hp hs
    rw [spRun_success aresp kresp i hc hi h2 (dictGet_some_ne_nil hp)]
    refine ⟨?_, rfl⟩
    rw [hp, hs, save_env_file_eq]

/-- Witness for C2 at a concrete input (both stages succeed with
credentials pub_abc and sub_xyz). -/
theorem C2_persisted_file_witness :
    (crpRun (.ok ⟨201, [("id", "app_123")]⟩)
        (.ok ⟨200, [("publishKey", "pub_abc"), ("subscribeKey", "sub_xyz")]⟩)).writes =
      [(".env",
        "# PubNub Configuration for Swap It!\n# Generated automatically\n\n" ++
          twoLineFile ("VITE_PUBNUB_PUBLISH_KEY=" ++ "pub_abc")
            ("VITE_PUBNUB_SUBSCRIBE_KEY=" ++ "sub_xyz"))] ∧
    (crpRun (.ok ⟨201, [("id", "app_123")]⟩)
        (.ok ⟨200, [("publishKey", "pub_abc"), ("subscribeKey", "sub_xyz")]⟩)).exitCode = 0 :=
  C2_persisted_file.1 ⟨201, [("id", "app_123")]⟩
    ⟨200, [("publishKey", "pub_abc"), ("subscribeKey", "sub_xyz")]⟩
    "app_123" "pub_abc" "sub_xyz"
    (by decide) (by decide) (by decide) (by decide) (by decide) (by decide) (by decide)

/-- C3: a 2xx application-creation response carrying a non-empty `id`
makes both pipelines proceed to the keyset-creation request, passing
that exact identifier unmodified as the scoping parameter: in
`create_pubnub_resources.py` as the URL path segment of
`/apps/{id}/keysets`, in `setup-pubnub.py` as the `app_id` field of the
request body. -/
theorem C3_keyset_scoping :
    (∀ (aresp : HttpResponse) (ksR : CallResult) (i : String),
      (aresp.status = 200 ∨ aresp.status = 201) →
      dictGet aresp.body "id" = some i → i ≠ "" →
      (crpRun (.ok aresp) ksR).requests =
        [appRequest "Swap It Game", crpKeysetRequest i "Swap It Production"] ∧
      (crpKeysetRequest i "Swap It Production").url =
        BASE_URL ++ "/apps/" ++ i ++ "/keysets") ∧
    (∀ (aresp : HttpResponse) (ksR : CallResult) (i : String),
      (aresp.status = 200 ∨ aresp.status = 201) →
      dictGet aresp.body "id" = some i → i ≠ "" →
      (spRun (.ok aresp) ksR).requests =
        [appRequest "Swap It Game", spKeysetRequest i "Swap It Game Keys"] ∧
      jsonField (spKeysetRequest i "Swap It Game Keys").body "app_id" = some (.str i)) := by
  constructor
  · intro aresp ksR i hst hid hi
    exact ⟨crpRun_requests_stage1_ok aresp ksR i (create_app_2xx aresp i hst hid) hi, rfl⟩
  · intro aresp ksR i hst hid hi
    refine ⟨spRun_requests_stage1_ok aresp ksR i (create_app_2xx aresp i hst hid) hi, ?_⟩
    simp [spKeysetRequest, spKeysetConfig, jsonField]

/-- Witness for C3 at a concrete input (201 response with id app_123,
keyset call then fails with 401). -/
theorem C3_keyset_scoping_witness :
    (crpRun (.ok ⟨201, [("id", "app_123")]⟩) (.ok ⟨401, []⟩)).requests =
      [appRequest "Swap It Game", crpKeysetRequest "app_123" "Swap It Production"] ∧
    (crpKeysetRequest "app_123" "Swap It Production").url =
      BASE_URL ++ "/apps/" ++ "app_123" ++ "/keysets" :=
  C3_keyset_scoping.1 ⟨201, [("id", "app_123")]⟩ (.ok ⟨401, []⟩) "app_123"
    (by decide) (by decide) (by decide)

/-- C4: an application-creation response with status outside 200/201,
or with an absent or empty `id` field, makes both pipelines exit with
code 1 having issued only the stage-1 request (no keyset-creation
request). -/
theorem C4_stage1_abort (aresp : HttpResponse) (ksR : CallResult)
    (h : ¬((aresp.status = 200 ∨ aresp.status = 201) ∧
           pyTruthy (dictGet aresp.body "id") = true)) :
    ((crpRun (.ok aresp) ksR).requests = [appRequest "Swap It Game"] ∧
     (crpRun (.ok aresp) ksR).exitCode = 1) ∧
    ((spRun (.ok aresp) ksR).requests = [appRequest "Swap It Game"] ∧
     (spRun (.ok aresp) ksR).exitCode = 1) := by
  have h1 : stage1Success (.ok aresp) = false := by
    simp only [stage1Success, create_app]
    by_cases hst : aresp.status = 200 ∨ aresp.status = 201
    · rw [if_pos hst]
      by_contra hne
      exact h ⟨hst, by simpa using hne⟩
    · rw [if_neg hst]
      rfl
  have hc := crpRun_stage1_fail (.ok aresp) ksR h1
  have hs := spRun_stage1_fail (.ok aresp) ksR h1
  exact ⟨⟨hc.1, hc.2.2⟩, ⟨hs.1, hs.2.2⟩⟩

/-- Witness for C4 at a concrete input (status 401). -/
theorem C4_stage1_abort_witness :
    ¬(((⟨401, []⟩ : HttpResponse).status = 200 ∨ (⟨401, []⟩ : HttpResponse).status = 201) ∧
      pyTruthy (dictGet (⟨401, []⟩ : HttpResponse).body "id") = true) ∧
    (((crpRun (.ok ⟨401, []⟩) (.ok ⟨200, []⟩)).requests = [appRequest "Swap It Game"] ∧
      (crpRun (.ok ⟨401, []⟩) (.ok ⟨200, []⟩)).exitCode = 1) ∧
     ((spRun (.ok ⟨401, []⟩) (.ok ⟨200, []⟩)).requests = [appRequest "Swap It Game"] ∧
      (spRun (.ok ⟨401, []⟩) (.ok ⟨200, []⟩)).exitCode = 1)) :=
  ⟨by decide, C4_stage1_abort ⟨401, []⟩ (.ok ⟨200, []⟩) (by decide)⟩

/-- C5: each pipeline writes only to its single fixed destination path
(every other path on disk is untouched, so no backup is made), and on a
successful run the file at that path afterwards holds exactly the
content determined by the two credential values, whatever was there
before. -/
theorem C5_write_frame :
    (∀ (appR ksR : CallResult) (fs : String → Option String) (q : String),
      q ≠ ".env" → applyWrites fs (crpRun appR ksR).writes q = fs q) ∧
    (∀ (appR ksR : CallResult) (fs : String → Option String) (q : String),
      q ≠ spEnvPath → applyWrites fs (spRun appR ksR).writes q = fs q) ∧
    (∀ (aresp kresp : HttpResponse) (i P S : String) (fs : String → Option String),
      create_app aresp = some i → i ≠ "" →
      (kresp.status = 200 ∨ kresp.status = 201) →
      dictGet kresp.body "publishKey" = some P → P ≠ "" →
      dictGet kresp.body "subscribeKey" = some S → S ≠ "" →
      applyWrites fs (crpRun (.ok aresp) (.ok kresp)).writes ".env" =
        some (create_env_file P S)) ∧
    (∀ (aresp kresp : HttpResponse) (i : String) (fs : String → Option String),
      create_app aresp = some i → i ≠ "" →
      (kresp.status = 200 ∨ kresp.status = 201) → kresp.body ≠ [] →
      applyWrites fs (spRun (.ok aresp) (.ok kresp)).writes spEnvPath =
        some (save_env_file (dictGet kresp.body "publish_key")
                            (dictGet kresp.body "subscribe_key"))) := by
  refine ⟨?_, ?_, ?_, ?_⟩
  · intro appR ksR fs q hq
    rcases crpRun_writes_shape appR ksR with hw | ⟨c, hw⟩
    · rw [hw, applyWrites_nil]
    · rw [hw, applyWrites_single, if_neg hq]
  · intro appR ksR fs q hq
    rcases spRun_writes_shape appR ksR with hw | ⟨c, hw⟩
    · rw [hw, applyWrites_nil]
    · rw [hw, applyWrites_single, if_neg hq]
  · intro aresp kresp i P S fs hc hi h2 hp hp' hs hs'
    rw [crpRun_success aresp kresp i P S hc hi h2 hp hp' hs hs']
    simp [applyWrites]
  · intro aresp kresp i fs hc hi h2 hd
    rw [spRun_success aresp kresp i hc hi h2 hd]
    simp [applyWrites]

/-- Witness for C5 at concrete inputs: an aborted run leaves another
path unchanged; a successful run leaves the credential file at the
fixed path. -/
theorem C5_write_frame_witness :
    applyWrites (fun _ => none) (crpRun (.ok ⟨401, []⟩) (.ok ⟨401, []⟩)).writes
      "other.txt" = none ∧
    applyWrites (fun _ => none)
        (crpRun (.ok ⟨201, [("id", "a")]⟩)
          (.ok ⟨200, [("publishKey", "p"), ("subscribeKey", "s")]⟩)).writes
      ".env" = some (create_env_file "p" "s") :=
  ⟨C5_write_frame.1 (.ok ⟨401, []⟩) (.ok ⟨401, []⟩) (fun _ => none) "other.txt" (by decide),
   C5_write_frame.2.2.1 ⟨201, [("id", "a")]⟩
     ⟨200, [("publishKey", "p"), ("subscribeKey", "s")]⟩ "a" "p" "s" (fun _ => none)
     (by decide) (by decide) (by decide) (by decide) (by decide) (by decide) (by decide)⟩

/-- C6: a transport exception raised by the stage-1 or stage-2 HTTP
call results in a printed stack trace and a non-zero exit code in both
pipelines; a fully successful run exits 0 with no stack trace. -/
theorem C6_fault_exit :
    (∀ (e : String) (ksR : CallResult),
      (crpRun (.error e) ksR).tracebackPrinted = true ∧
      (crpRun (.error e) ksR).exitCode ≠ 0 ∧
      (spRun (.error e) ksR).tracebackPrinted = true ∧
      (spRun (.error e) ksR).exitCode ≠ 0) ∧
    (∀ (appR : CallResult) (e : String), stage1Success appR = true →
      (crpRun appR (.error e)).tracebackPrinted = true ∧
      (crpRun appR (.error e)).exitCode ≠ 0 ∧
      (spRun appR (.error e)).tracebackPrinted = true ∧
      (spRun appR (.error e)).exitCode ≠ 0) ∧
    (∀ (aresp kresp : HttpResponse) (i P S : String),
      create_app aresp = some i → i ≠ "" →
      (kresp.status = 200 ∨ kresp.status = 201) →
      dictGet kresp.body "publishKey" = some P → P ≠ "" →
      dictGet kresp.body "subscribeKey" = some S → S ≠ "" →
      (crpRun (.ok aresp) (.ok kresp)).exitCode = 0 ∧
      (crpRun (.ok aresp) (.ok kresp)).tracebackPrinted = false) ∧
    (∀ (aresp kresp : HttpResponse) (i : String),
      create_app aresp = some i → i ≠ "" →
      (kresp.status = 200 ∨ kresp.status = 201) → kresp.body ≠ [] →
      (spRun (.ok aresp) (.ok kresp)).exitCode = 0 ∧
      (spRun (.ok aresp) (.ok kresp)).tracebackPrinted = false) := by
  refine ⟨?_, ?_, ?_, ?_⟩
  · intro e ksR
    exact ⟨rfl, by simp [crpRun], rfl, by simp [spRun]⟩
  · intro appR e h1
    obtain ⟨aresp, i, rfl, hc, hi⟩ := stage1Success_elim appR h1
    refine ⟨?_, ?_, ?_, ?_⟩ <;> simp [crpRun, spRun, hc, hi]
  · intro aresp kresp i P S hc hi h2 hp hp' hs hs'
    rw [crpRun_success aresp kresp i P S hc hi h2 hp hp' hs hs']
    exact ⟨rfl, rfl⟩
  · intro aresp kresp i hc hi h2 hd
    rw [spRun_success aresp kresp i hc hi h2 hd]
    exact ⟨rfl, rfl⟩

/-- Witness for C6 at concrete inputs: stage-2 transport exception
after a successful stage 1, and a fully successful run. -/
theorem C6_fault_exit_witness :
    (stage1Success (.ok ⟨200, [("id", "a")]⟩) = true ∧
     ((crpRun (.ok ⟨200, [("id", "a")]⟩) (.error "timeout")).tracebackPrinted = true ∧
      (crpRun (.ok ⟨200, [("id", "a")]⟩) (.error "timeout")).exitCode ≠ 0 ∧
      (spRun (.ok ⟨200, [("id", "a")]⟩) (.error "timeout")).tracebackPrinted = true ∧
      (spRun (.ok ⟨200, [("id", "a")]⟩) (.error "timeout")).exitCode ≠ 0)) ∧
    ((crpRun (.ok ⟨200, [("id", "a")]⟩)
        (.ok ⟨200, [("publishKey", "p"), ("subscribeKey", "s")]⟩)).exitCode = 0 ∧
     (crpRun (.ok ⟨200, [("id", "a")]⟩)
        (.ok ⟨200, [("publishKey", "p"), ("subscribeKey", "s")]⟩)).tracebackPrinted = false) :=
  ⟨⟨by decide, C6_fault_exit.2.1 (.ok ⟨200, [("id", "a")]⟩) "timeout" (by decide)⟩,
   C6_fault_exit.2.2.1 ⟨200, [("id", "a")]⟩
     ⟨200, [("publishKey", "p"), ("subscribeKey", "s")]⟩ "a" "p" "s"
     (by decide) (by decide) (by decide) (by decide) (by decide) (by decide) (by decide)⟩

/-- C7: every stage-1 request is a POST with the Bearer-auth and JSON
Content-Type headers and the body exactly `{"name": name}`; both
pipelines issue it first; and stage 1 is recognised as successful
exactly when the status is 200 or 201 and the body carries a non-empty
`id` field. -/
theorem C7_stage1_contract :
    (∀ name : String,
      (appRequest name).method = "POST" ∧
      (appRequest name).headers =
        [("Authorization", "Bearer " ++ API_KEY), ("Content-Type", "application/json")] ∧
      (appRequest name).body = .obj [("name", .str name)]) ∧
    (∀ appR ksR : CallResult,
      (crpRun appR ksR).requests.head? = some (appRequest "Swap It Game") ∧
      (spRun appR ksR).requests.head? = some (appRequest "Swap It Game")) ∧
    (∀ resp : HttpResponse,
      pyTruthy (create_app resp) = true ↔
        ((resp.status = 200 ∨ resp.status = 201) ∧
         ∃ v, dictGet resp.body "id" = some v ∧ v ≠ "")) := by
  refine ⟨fun name => ⟨rfl, rfl, rfl⟩, fun appR ksR =>
    ⟨crpRun_first_request appR ksR, spRun_first_request appR ksR⟩, ?_⟩
  intro resp
  constructor
  · intro h
    simp only [create_app] at h
    by_cases hst : resp.status = 200 ∨ resp.status = 201
    · rw [if_pos hst] at h
      cases hid : dictGet resp.body "id" with
      | none => rw [hid] at h; simp [pyTruthy] at h
      | some v =>
        rw [hid] at h
        exact ⟨hst, v, rfl, by simpa [pyTruthy] using h⟩
    · rw [if_neg hst] at h
      simp [pyTruthy] at h
  · rintro ⟨hst, v, hid, hv⟩
    simp [create_app, hst, hid, pyTruthy, hv]

/-- C8: the probing loop issues, for every oracle of outcomes, exactly
one request per entry of the fixed list, in order, each a GET with
timeout 5; an exception on any request leaves the rest of the trace
intact. -/
theorem C8_probe_independent (oracle : String → ProbeOutcome) :
    (runProbe endpoints oracle).map Prod.fst =
      endpoints.map (fun e => mkProbeCall e.1 e.2.1) ∧
    (runProbe endpoints oracle).length = endpoints.length ∧
    ((runProbe endpoints oracle).all
      (fun pr => pr.1.method == "GET" && pr.1.timeout == 5)) = true := by
  refine ⟨?_, ?_, ?_⟩ <;> rfl

/-- C9: a run that aborts at stage 1 or at stage 2 performs no file
write at all, leaving every path on disk exactly as it was. -/
theorem C9_disk_unchanged_on_abort (appR ksR : CallResult)
    (h : ¬(stage1Success appR = true ∧ stage2Success ksR = true)) :
    (crpRun appR ksR).writes = [] ∧ (spRun appR ksR).writes = [] ∧
    (∀ fs : String → Option String, applyWrites fs (crpRun appR ksR).writes = fs) ∧
    (∀ fs : String → Option String, applyWrites fs (spRun appR ksR).writes = fs) := by
  have hcw : (crpRun appR ksR).writes = [] := by
    by_cases h1 : stage1Success appR = true
    · by_cases h2 : stage2Success ksR = true
      · exact absurd ⟨h1, h2⟩ h
      · exact (crpRun_stage2_fail appR ksR (by simpa using h2)).1
    · exact (crpRun_stage1_fail appR ksR (by simpa using h1)).2.1
  have hsw : (spRun appR ksR).writes = [] := by
    by_cases h1 : stage1Success appR = true
    · by_cases h2 : stage2Success ksR = true
      · exact absurd ⟨h1, h2⟩ h
      · exact (spRun_stage2_fail appR ksR (by simpa using h2)).1
    · exact (spRun_stage1_fail appR ksR (by simpa using h1)).2.1
  refine ⟨hcw, hsw, fun fs => ?_, fun fs => ?_⟩
  · rw [hcw, applyWrites_nil]
  · rw [hsw, applyWrites_nil]

/-- Witness for C9 at a concrete input (stage 1 fails with 401). -/
theorem C9_disk_unchanged_on_abort_witness :
    ¬(stage1Success (.ok ⟨401, []⟩) = true ∧ stage2Success (.ok ⟨200, [("id", "k")]⟩) = true) ∧
    (crpRun (.ok ⟨401, []⟩) (.ok ⟨200, [("id", "k")]⟩)).writes = [] ∧
    (spRun (.ok ⟨401, []⟩) (.ok ⟨200, [("id", "k")]⟩)).writes = [] :=
  ⟨by decide,
   (C9_disk_unchanged_on_abort (.ok ⟨401, []⟩) (.ok ⟨200, [("id", "k")]⟩) (by decide)).1,
   (C9_disk_unchanged_on_abort (.ok ⟨401, []⟩) (.ok ⟨200, [("id", "k")]⟩) (by decide)).2.1⟩

/-- C10: every entry of the fixed endpoint list has method GET, so for
every oracle of outcomes no issued probe request was built by the
POST-issuing else branch. -/
theorem C10_post_branch_unreachable :
    (endpoints.all (fun e => e.1 == "GET")) = true ∧
    (∀ oracle : String → ProbeOutcome,
      ((runProbe endpoints oracle).all
        (fun pr => pr.1.viaPostBranch == false)) = true) := by
  exact ⟨by decide, fun oracle => rfl⟩
